import Mathlib

/-!
Shallow embedding of the server-statistics monitor (`main.go`).

The program's pure core is the body of `pollOnce` after the HTTP fetch: it
trims the response body, splits it into comma-separated fields (`splitCSV`),
parses each of the 7 fields with `strconv.ParseUint(_, 10, 64)` counting
parse failures, aborts when more than 3 fields failed, and then runs four
threshold checks in order (load average, memory, disk, network), printing an
alert line per breached threshold and aborting on a zero denominator.

Modelling decisions:
* strings are `List Char`; `strings.Split`/`strings.TrimSpace` are embedded
  directly (`splitOnComma`, `trimSpace`, with Go's `unicode.IsSpace` set);
* `strconv.ParseUint(s, 10, 64)` returns a pair (value, ok): Go scans left
  to right and returns value 0 the moment a non-digit is reached (syntax
  error) but the maximum uint64 the moment the accumulated value overflows
  64 bits (range error, later characters unexamined), and `pollOnce` keeps
  that returned value either way;
* the printed alert lines are modelled as an inductive `Alert` carrying the
  numbers that `fmt.Printf` would interpolate, accumulated in a list in
  print order; returning an error is modelled by `Option CycleErr`;
* the source computes the three percentages in `float64`; they are embedded
  as exact rationals (`ℚ`), with the same strict `>` comparisons;
* uint64 subtraction wraps modulo 2^64 (`uint64Sub`), the `int64(...)`
  conversion reinterprets modulo 2^64 into [-2^63, 2^63) (`toInt64`), and
  Go's integer division truncates toward zero (`Int.tdiv`).
-/

namespace ServerMon

/-- Threshold for the load-average check (`loadAverageThreshold` in main.go). -/
def loadAverageThreshold : Nat := 30

/-- Threshold for the memory-usage check, in percent (`memoryUsageThreshold`). -/
def memoryUsageThreshold : Nat := 80

/-- Threshold for the disk-usage check, in percent (`freeDiscSpaceThreshold`). -/
def freeDiscSpaceThreshold : Nat := 90

/-- Threshold for the network-usage check, in percent (`networkBandwidthThreshold`). -/
def networkBandwidthThreshold : Nat := 90

/-- Go's `unicode.IsSpace`: the Unicode White_Space code points. -/
def goIsSpace (c : Char) : Bool :=
  c.val = 9 || c.val = 10 || c.val = 11 || c.val = 12 || c.val = 13 || c.val = 32 ||
  c.val = 0x85 || c.val = 0xA0 || c.val = 0x1680 ||
  (0x2000 ≤ c.val && c.val ≤ 0x200A) ||
  c.val = 0x2028 || c.val = 0x2029 || c.val = 0x202F || c.val = 0x205F || c.val = 0x3000

/-- Go's `strings.TrimSpace`: drop White_Space characters from both ends. -/
def trimSpace (s : List Char) : List Char :=
  ((s.dropWhile goIsSpace).reverse.dropWhile goIsSpace).reverse

/-- Go's `strings.Split(s, ",")`: split on every comma, keeping empty segments;
the empty string yields one (empty) segment. -/
def splitOnComma : List Char → List (List Char)
  | [] => [[]]
  | c :: cs =>
    if c = ',' then [] :: splitOnComma cs
    else
      match splitOnComma cs with
      | f :: rest => (c :: f) :: rest
      | [] => [[c]]

/-- `splitCSV` from main.go: split on commas, then trim each segment
(both branches of the source's `if` append the segment, so no segment is dropped). -/
def splitCSV (s : List Char) : List (List Char) :=
  (splitOnComma s).map trimSpace

/-- Numeric value of a list of decimal digits, most significant first. -/
def digitsToNat (s : List Char) : Nat :=
  s.foldl (fun n c => n * 10 + (c.toNat - 48)) 0

/-- The scanning loop of Go's `strconv.ParseUint(s, 10, 64)`: characters are
consumed left to right with accumulator `n`. The first non-digit stops the
scan with a syntax error and value 0; if instead appending a digit would push
the accumulated value to 2^64 or beyond, the scan stops immediately — before
later characters are examined — with a range error and the maximum uint64
value. (The single bound check `n * 10 + d < 2^64` is equivalent to Go's
cutoff test plus wraparound test for base 10 and bit size 64.) -/
def parseUintLoop : Nat → List Char → Nat × Bool
  | n, [] => (n, true)
  | n, c :: cs =>
    if c.isDigit then
      if n * 10 + (c.toNat - 48) < 2 ^ 64 then
        parseUintLoop (n * 10 + (c.toNat - 48)) cs
      else (2 ^ 64 - 1, false)
    else (0, false)

/-- Go's `strconv.ParseUint(s, 10, 64)`, returning (value, ok): the empty
string is a syntax error with value 0; otherwise the string is scanned by
`parseUintLoop`, so a failure leaves value 0 (syntax error: a non-digit was
reached first) or 2^64 - 1 (range error: the digit prefix overflowed first).
`pollOnce` keeps the returned value in both cases. -/
def parseUintGo (s : List Char) : Nat × Bool :=
  if s = [] then (0, false) else parseUintLoop 0 s

/-- The parsed metrics record: the seven local variables of `pollOnce`
(`loadAvg`, `memTotal`, `memUsed`, `diskTotal`, `diskUsed`, `netCap`,
`netUsed`), each a uint64 value. -/
structure Snapshot where
  loadAvg : Nat
  memTotal : Nat
  memUsed : Nat
  diskTotal : Nat
  diskUsed : Nat
  netCap : Nat
  netUsed : Nat
deriving DecidableEq, Repr

/-- 1 for a failed parse, 0 for a successful one (`errNum++` in main.go). -/
def errInc (ok : Bool) : Nat := if ok then 0 else 1

/-- The seven `strconv.ParseUint` calls of `pollOnce`: each field keeps the
value ParseUint returned (0 on syntax error, 2^64 - 1 on range error), and
`errNum` counts the failed fields. -/
def parseFields (parts : List (List Char)) : Snapshot × Nat :=
  let p0 := parseUintGo (parts.getD 0 [])
  let p1 := parseUintGo (parts.getD 1 [])
  let p2 := parseUintGo (parts.getD 2 [])
  let p3 := parseUintGo (parts.getD 3 [])
  let p4 := parseUintGo (parts.getD 4 [])
  let p5 := parseUintGo (parts.getD 5 [])
  let p6 := parseUintGo (parts.getD 6 [])
  (⟨p0.1, p1.1, p2.1, p3.1, p4.1, p5.1, p6.1⟩,
   errInc p0.2 + errInc p1.2 + errInc p2.2 + errInc p3.2 +
   errInc p4.2 + errInc p5.2 + errInc p6.2)

/-- One alert line printed by `fmt.Printf`, carrying the interpolated values. -/
inductive Alert where
  /-- "Load Average is too high: %d" -/
  | loadAvg (v : Nat)
  /-- "Memory usage too high: %f%%" -/
  | memory (pct : ℚ)
  /-- "Free disk space is too low: %d Mb left" -/
  | disk (freeMB : Int)
  /-- "Network bandwidth usage high: %f Mbit/s available" -/
  | network (freeMbit : ℚ)
deriving DecidableEq, Repr

/-- The distinct error returns of `pollOnce` after the body has been read. -/
inductive CycleErr where
  /-- "unexpected field number: %d" -/
  | wrongFieldCount (n : Nat)
  /-- "too may errors" (more than 3 unparsable fields) -/
  | tooManyErrors
  /-- "memTotal=0" -/
  | memTotalZero
  /-- "diskTotal=0" -/
  | diskTotalZero
  /-- "netCap=0" -/
  | netCapZero
deriving DecidableEq, Repr

/-- Wrapping uint64 subtraction `a - b` for `a, b < 2^64`. -/
def uint64Sub (a b : Nat) : Nat := (a + 2 ^ 64 - b) % 2 ^ 64

/-- Go's `int64(x)` conversion of a uint64 value: reinterpret modulo 2^64
into the interval [-2^63, 2^63). -/
def toInt64 (n : Nat) : Int :=
  if n < 2 ^ 63 then (n : Int) else (n : Int) - 2 ^ 64

/-- Check 1 of `pollOnce`: the load-average alert, if any. -/
def loadAlerts (s : Snapshot) : List Alert :=
  if s.loadAvg > loadAverageThreshold then [.loadAvg s.loadAvg] else []

/-- `memPct := (float64(memUsed) / float64(memTotal)) * 100.0`, as an exact rational. -/
def memPct (s : Snapshot) : ℚ :=
  (s.memUsed : ℚ) / (s.memTotal : ℚ) * 100

/-- Check 2 of `pollOnce` (past the zero guard): the memory alert, if any. -/
def memAlerts (s : Snapshot) : List Alert :=
  if memPct s > (memoryUsageThreshold : ℚ) then [.memory (memPct s)] else []

/-- `diskPct := (float64(diskUsed) / float64(diskTotal)) * 100.0`, as an exact rational. -/
def diskPct (s : Snapshot) : ℚ :=
  (s.diskUsed : ℚ) / (s.diskTotal : ℚ) * 100

/-- Check 3 of `pollOnce` (past the zero guard): the disk alert, if any.
`freeBytes := int64(diskTotal - diskUsed)` wraps modulo 2^64 and is then
reinterpreted as int64; `freeMB := freeBytes / (1024*1024)` truncates toward
zero (Go integer division). -/
def diskAlerts (s : Snapshot) : List Alert :=
  if diskPct s > (freeDiscSpaceThreshold : ℚ) then
    [.disk (Int.tdiv (toInt64 (uint64Sub s.diskTotal s.diskUsed)) (1024 * 1024))]
  else []

/-- `netPct := (float64(netUsed) / float64(netCap)) * 100.0`, as an exact rational. -/
def netPct (s : Snapshot) : ℚ :=
  (s.netUsed : ℚ) / (s.netCap : ℚ) * 100

/-- Check 4 of `pollOnce` (past the zero guard): the network alert, if any.
`freeBytesPerSec := float64(netCap - netUsed)` wraps modulo 2^64 before the
float conversion; `freeMbit := freeBytesPerSec * 8.0 / 1_000_000.0`. -/
def netAlerts (s : Snapshot) : List Alert :=
  if netPct s > (networkBandwidthThreshold : ℚ) then
    [.network ((uint64Sub s.netCap s.netUsed : ℚ) * 8 / 1000000)]
  else []

/-- The four threshold checks of `pollOnce`, in source order: alert lines are
accumulated in print order; a zero denominator returns the corresponding
guard error together with the alerts already printed. -/
def evaluate (s : Snapshot) : List Alert × Option CycleErr :=
  let out := loadAlerts s
  if s.memTotal = 0 then (out, some .memTotalZero)
  else
    let out := out ++ memAlerts s
    if s.diskTotal = 0 then (out, some .diskTotalZero)
    else
      let out := out ++ diskAlerts s
      if s.netCap = 0 then (out, some .netCapZero)
      else (out ++ netAlerts s, none)

/-- `pollOnce` from main.go, from the point where the response body has been
read: trim the body, split it with `splitCSV`, fail unless exactly 7 fields,
parse the 7 fields counting failures, fail when more than 3 failed, then run
the four threshold checks. Returns the printed alert lines and the error
result (`none` = the cycle succeeded). -/
def pollOnce (body : List Char) : List Alert × Option CycleErr :=
  let parts := splitCSV (trimSpace body)
  if parts.length ≠ 7 then ([], some (.wrongFieldCount parts.length))
  else
    let pr := parseFields parts
    if pr.2 > 3 then ([], some .tooManyErrors)
    else evaluate pr.1

/-! ## Claim theorems -/

/-- Claim C2: for every input line whose comma-split, per-segment-trimmed field
count is not exactly 7 (empty segments preserved), the cycle fails with the
structural wrong-field-count error, with no alerts emitted — so before any
numeric field interpretation or threshold evaluation — regardless of content. -/
theorem wrong_field_count_structural_error (body : List Char)
    (h : (splitCSV (trimSpace body)).length ≠ 7) :
    pollOnce body =
      ([], some (CycleErr.wrongFieldCount (splitCSV (trimSpace body)).length)) := by
  simp only [pollOnce]
  rw [if_pos h]

/-- Witness for C2: a line with 8 fields fails structurally. -/
theorem wrong_field_count_structural_error_witness :
    (splitCSV (trimSpace ("1,2,3,4,5,6,7,8".toList))).length ≠ 7 ∧
    pollOnce ("1,2,3,4,5,6,7,8".toList) = ([], some (CycleErr.wrongFieldCount 8)) :=
  ⟨by decide, by
    have h := wrong_field_count_structural_error ("1,2,3,4,5,6,7,8".toList) (by decide)
    rw [h]
    decide⟩

/-- Claim C8: threshold evaluation is deterministic in the snapshot and the
(compile-time) configuration: evaluating the same snapshot twice yields the
same alert lines, in the same order with the same values, and the same cycle
outcome. -/
theorem evaluate_deterministic (s t : Snapshot) (h : s = t) :
    (evaluate s).1 = (evaluate t).1 ∧ (evaluate s).2 = (evaluate t).2 := by
  subst h
  exact ⟨rfl, rfl⟩

/-- Witness for C8 at a concrete snapshot. -/
theorem evaluate_deterministic_witness :
    (evaluate ⟨45, 1000, 900, 1000, 500, 1000, 500⟩).1 =
      (evaluate ⟨45, 1000, 900, 1000, 500, 1000, 500⟩).1 :=
  (evaluate_deterministic ⟨45, 1000, 900, 1000, 500, 1000, 500⟩ _ rfl).1

/-- Claim C10: alert emission is not atomic with cycle failure: when the load
average is strictly above its threshold and `memTotal = 0`, the load alert
line is printed and the cycle then still fails with the memory guard error. -/
theorem alert_before_guard_not_suppressed (s : Snapshot)
    (hl : s.loadAvg > loadAverageThreshold) (hm : s.memTotal = 0) :
    evaluate s = ([Alert.loadAvg s.loadAvg], some CycleErr.memTotalZero) := by
  simp [evaluate, loadAlerts, hl, hm]

/-- Witness for C10 at a concrete snapshot. -/
theorem alert_before_guard_not_suppressed_witness :
    evaluate ⟨45, 0, 0, 1000, 100, 1000, 50⟩ =
      ([Alert.loadAvg 45], some CycleErr.memTotalZero) :=
  alert_before_guard_not_suppressed ⟨45, 0, 0, 1000, 100, 1000, 50⟩ (by decide) rfl

/-- Claim C4: a zero denominator is a cycle-ending guard error, never "0%
usage": `memTotal = 0` aborts before the disk and network checks run,
`diskTotal = 0` aborts before the network check, and `netCap = 0` aborts the
cycle, each with its own guard error. -/
theorem zero_denominator_guards (s : Snapshot) :
    (s.memTotal = 0 → evaluate s = (loadAlerts s, some CycleErr.memTotalZero)) ∧
    (s.memTotal ≠ 0 → s.diskTotal = 0 →
      evaluate s = (loadAlerts s ++ memAlerts s, some CycleErr.diskTotalZero)) ∧
    (s.memTotal ≠ 0 → s.diskTotal ≠ 0 → s.netCap = 0 →
      evaluate s = (loadAlerts s ++ memAlerts s ++ diskAlerts s,
        some CycleErr.netCapZero)) := by
  exact ⟨fun hm => by simp [evaluate, hm],
    fun hm hd => by simp [evaluate, hm, hd],
    fun hm hd hn => by simp [evaluate, hm, hd, hn]⟩

/-- Witness for C4: the spec's Scenario D line aborts on the memory guard with
no alerts. -/
theorem zero_denominator_guards_witness :
    pollOnce ("5,0,0,1000,100,1000,50".toList) = ([], some CycleErr.memTotalZero) := by
  have hsplit : splitCSV (trimSpace ("5,0,0,1000,100,1000,50".toList)) =
      ["5".toList, "0".toList, "0".toList, "1000".toList, "100".toList,
       "1000".toList, "50".toList] := by decide
  have hparse : parseFields ["5".toList, "0".toList, "0".toList, "1000".toList,
      "100".toList, "1000".toList, "50".toList] =
      (⟨5, 0, 0, 1000, 100, 1000, 50⟩, 0) := by decide
  have hg := (zero_denominator_guards ⟨5, 0, 0, 1000, 100, 1000, 50⟩).1 rfl
  simp only [pollOnce, hsplit, hparse]
  norm_num [hg, loadAlerts, loadAverageThreshold]

/-- `errNum++` as a summand: 1 for a failed parse, 0 otherwise. -/
theorem errInc_eq (ok : Bool) : errInc ok = if (!ok) = true then 1 else 0 := by
  cases ok <;> rfl

/-- On a 7-field record, `errNum` is exactly the number of fields whose
`strconv.ParseUint` call failed. -/
theorem parseFields_errCount (parts : List (List Char)) (h : parts.length = 7) :
    (parseFields parts).2 = parts.countP (fun p => !(parseUintGo p).2) := by
  match parts, h with
  | [a, b, c, d, e, f, g], _ =>
    have hp : parseFields [a, b, c, d, e, f, g] =
        (⟨(parseUintGo a).1, (parseUintGo b).1, (parseUintGo c).1, (parseUintGo d).1,
          (parseUintGo e).1, (parseUintGo f).1, (parseUintGo g).1⟩,
         errInc (parseUintGo a).2 + errInc (parseUintGo b).2 + errInc (parseUintGo c).2 +
         errInc (parseUintGo d).2 + errInc (parseUintGo e).2 + errInc (parseUintGo f).2 +
         errInc (parseUintGo g).2) := rfl
    rw [hp]
    simp only [errInc_eq, List.countP_cons, List.countP_nil]
    split_ifs <;> omega

/-- Claim C3: on a 7-field line, more than 3 unparsable fields abort the cycle
with the too-many-errors failure before any threshold check; with at most 3
failed fields the cycle proceeds to threshold evaluation, and the count gating
this decision is exactly the number of fields that failed interpretation. -/
theorem error_budget_gate (body : List Char)
    (h7 : (splitCSV (trimSpace body)).length = 7) :
    (parseFields (splitCSV (trimSpace body))).2 =
      (splitCSV (trimSpace body)).countP (fun p => !(parseUintGo p).2) ∧
    ((parseFields (splitCSV (trimSpace body))).2 > 3 →
      pollOnce body = ([], some CycleErr.tooManyErrors)) ∧
    ((parseFields (splitCSV (trimSpace body))).2 ≤ 3 →
      pollOnce body = evaluate (parseFields (splitCSV (trimSpace body))).1) := by
  refine ⟨parseFields_errCount _ h7, fun hgt => ?_, fun hle => ?_⟩
  · simp [pollOnce, h7, hgt]
  · simp [pollOnce, h7, Nat.not_lt.mpr hle]

/-- Witness for C3: a line with 4 non-numeric fields aborts with the
too-many-errors failure. -/
theorem error_budget_gate_witness :
    pollOnce ("a,b,c,d,1,1,1".toList) = ([], some CycleErr.tooManyErrors) :=
  (error_budget_gate ("a,b,c,d,1,1,1".toList) (by decide)).2.1 (by decide)

/-- An alert in `loadAlerts` is the load alert, and the threshold was strictly
exceeded. -/
theorem mem_loadAlerts {s : Snapshot} {a : Alert} (h : a ∈ loadAlerts s) :
    a = Alert.loadAvg s.loadAvg ∧ s.loadAvg > loadAverageThreshold := by
  unfold loadAlerts at h
  split_ifs at h with hc
  · simp at h; exact ⟨h, hc⟩
  · simp at h

/-- An alert in `memAlerts` is the memory alert, and the threshold was strictly
exceeded. -/
theorem mem_memAlerts {s : Snapshot} {a : Alert} (h : a ∈ memAlerts s) :
    a = Alert.memory (memPct s) ∧ memPct s > (memoryUsageThreshold : ℚ) := by
  unfold memAlerts at h
  split_ifs at h with hc
  · simp at h; exact ⟨h, hc⟩
  · simp at h

/-- An alert in `diskAlerts` is the disk alert, and the threshold was strictly
exceeded. -/
theorem mem_diskAlerts {s : Snapshot} {a : Alert} (h : a ∈ diskAlerts s) :
    a = Alert.disk (Int.tdiv (toInt64 (uint64Sub s.diskTotal s.diskUsed)) (1024 * 1024)) ∧
    diskPct s > (freeDiscSpaceThreshold : ℚ) := by
  unfold diskAlerts at h
  split_ifs at h with hc
  · simp at h; exact ⟨h, hc⟩
  · simp at h

/-- An alert in `netAlerts` is the network alert, and the threshold was
strictly exceeded. -/
theorem mem_netAlerts {s : Snapshot} {a : Alert} (h : a ∈ netAlerts s) :
    a = Alert.network ((uint64Sub s.netCap s.netUsed : ℚ) * 8 / 1000000) ∧
    netPct s > (networkBandwidthThreshold : ℚ) := by
  unfold netAlerts at h
  split_ifs at h with hc
  · simp at h; exact ⟨h, hc⟩
  · simp at h

/-- Every emitted alert line comes from one of the four checks. -/
theorem mem_evaluate_fst {s : Snapshot} {a : Alert} (h : a ∈ (evaluate s).1) :
    a ∈ loadAlerts s ∨ a ∈ memAlerts s ∨ a ∈ diskAlerts s ∨ a ∈ netAlerts s := by
  unfold evaluate at h
  split_ifs at h <;> simp only [List.mem_append] at h <;> tauto

/-- Claim C5: all four threshold comparisons are strict: a dimension whose
value or computed percentage is exactly equal to its threshold emits no alert,
and the line "10,1000,500,1000,900,1000,500" (disk usage exactly 90%)
produces zero alerts and a successful cycle. -/
theorem strict_threshold_boundary (s : Snapshot) :
    (s.loadAvg = loadAverageThreshold → ∀ v, Alert.loadAvg v ∉ (evaluate s).1) ∧
    (memPct s = (memoryUsageThreshold : ℚ) → ∀ q, Alert.memory q ∉ (evaluate s).1) ∧
    (diskPct s = (freeDiscSpaceThreshold : ℚ) → ∀ m, Alert.disk m ∉ (evaluate s).1) ∧
    (netPct s = (networkBandwidthThreshold : ℚ) → ∀ q, Alert.network q ∉ (evaluate s).1) ∧
    pollOnce ("10,1000,500,1000,900,1000,500".toList) = ([], none) := by
  refine ⟨fun he v hv => ?_, fun he q hv => ?_, fun he m hv => ?_, fun he q hv => ?_, ?_⟩
  · rcases mem_evaluate_fst hv with h | h | h | h
    · obtain ⟨_, hgt⟩ := mem_loadAlerts h
      rw [he] at hgt
      exact lt_irrefl _ hgt
    · obtain ⟨heq, _⟩ := mem_memAlerts h; simp at heq
    · obtain ⟨heq, _⟩ := mem_diskAlerts h; simp at heq
    · obtain ⟨heq, _⟩ := mem_netAlerts h; simp at heq
  · rcases mem_evaluate_fst hv with h | h | h | h
    · obtain ⟨heq, _⟩ := mem_loadAlerts h; simp at heq
    · obtain ⟨_, hgt⟩ := mem_memAlerts h
      rw [he] at hgt
      exact lt_irrefl _ hgt
    · obtain ⟨heq, _⟩ := mem_diskAlerts h; simp at heq
    · obtain ⟨heq, _⟩ := mem_netAlerts h; simp at heq
  · rcases mem_evaluate_fst hv with h | h | h | h
    · obtain ⟨heq, _⟩ := mem_loadAlerts h; simp at heq
    · obtain ⟨heq, _⟩ := mem_memAlerts h; simp at heq
    · obtain ⟨_, hgt⟩ := mem_diskAlerts h
      rw [he] at hgt
      exact lt_irrefl _ hgt
    · obtain ⟨heq, _⟩ := mem_netAlerts h; simp at heq
  · rcases mem_evaluate_fst hv with h | h | h | h
    · obtain ⟨heq, _⟩ := mem_loadAlerts h; simp at heq
    · obtain ⟨heq, _⟩ := mem_memAlerts h; simp at heq
    · obtain ⟨heq, _⟩ := mem_diskAlerts h; simp at heq
    · obtain ⟨_, hgt⟩ := mem_netAlerts h
      rw [he] at hgt
      exact lt_irrefl _ hgt
  · have hsplit : splitCSV (trimSpace ("10,1000,500,1000,900,1000,500".toList)) =
        ["10".toList, "1000".toList, "500".toList, "1000".toList, "900".toList,
         "1000".toList, "500".toList] := by decide
    have hparse : parseFields ["10".toList, "1000".toList, "500".toList, "1000".toList,
        "900".toList, "1000".toList, "500".toList] =
        (⟨10, 1000, 500, 1000, 900, 1000, 500⟩, 0) := by decide
    simp only [pollOnce, hsplit, hparse]
    norm_num [evaluate, loadAlerts, memAlerts, diskAlerts, netAlerts, memPct, diskPct,
      netPct, loadAverageThreshold, memoryUsageThreshold, freeDiscSpaceThreshold,
      networkBandwidthThreshold]

/-- Witness for C5: a snapshot whose disk usage is exactly 90% emits no disk
alert. -/
theorem strict_threshold_boundary_witness :
    Alert.disk 0 ∉ (evaluate ⟨10, 1000, 500, 1000, 900, 1000, 500⟩).1 :=
  (strict_threshold_boundary ⟨10, 1000, 500, 1000, 900, 1000, 500⟩).2.2.1
    (by norm_num [diskPct, freeDiscSpaceThreshold]) 0

/-- Counterexample to claim C1: the field "18446744073709551616" (= 2^64)
fails interpretation with a range error, yet its snapshot value is
2^64 - 1, not 0, and that value triggers a load alert — a failed field
contributing a nonzero value to threshold evaluation. -/
theorem overflow_field_feeds_evaluation :
    (parseUintGo ("18446744073709551616".toList)).2 = false ∧
    (parseUintGo ("18446744073709551616".toList)).1 = 2 ^ 64 - 1 ∧
    pollOnce ("18446744073709551616,1000,100,1000,100,1000,50".toList) =
      ([Alert.loadAvg (2 ^ 64 - 1)], none) := by
  refine ⟨by decide, by decide, ?_⟩
  have hsplit : splitCSV
      (trimSpace ("18446744073709551616,1000,100,1000,100,1000,50".toList)) =
      ["18446744073709551616".toList, "1000".toList, "100".toList, "1000".toList,
       "100".toList, "1000".toList, "50".toList] := by decide
  have hparse : parseFields ["18446744073709551616".toList, "1000".toList, "100".toList,
      "1000".toList, "100".toList, "1000".toList, "50".toList] =
      (⟨2 ^ 64 - 1, 1000, 100, 1000, 100, 1000, 50⟩, 1) := by decide
  simp only [pollOnce, hsplit, hparse]
  norm_num [evaluate, loadAlerts, memAlerts, diskAlerts, netAlerts, memPct, diskPct,
    netPct, loadAverageThreshold, memoryUsageThreshold, freeDiscSpaceThreshold,
    networkBandwidthThreshold]

/-- Folding digits into the accumulator never decreases it. -/
theorem le_foldl_digits (l : List Char) (n : Nat) :
    n ≤ l.foldl (fun a c => a * 10 + (c.toNat - 48)) n := by
  induction l generalizing n with
  | nil => exact Nat.le_refl n
  | cons c cs ih =>
    simp only [List.foldl_cons]
    exact Nat.le_trans (by omega) (ih (n * 10 + (c.toNat - 48)))

/-- Characterization of the `ParseUint` scanning loop for an in-range
accumulator: if the value accumulated over the leading digit prefix reaches
2^64, the loop stops with a range error and value 2^64 - 1 (whether or not a
non-digit follows the prefix); otherwise it either consumes an all-digit
remainder successfully or stops with a syntax error and value 0 at the first
non-digit. -/
theorem parseUintLoop_spec (s : List Char) (n : Nat) (hn : n < 2 ^ 64) :
    (2 ^ 64 ≤ (s.takeWhile Char.isDigit).foldl (fun a c => a * 10 + (c.toNat - 48)) n →
      parseUintLoop n s = (2 ^ 64 - 1, false)) ∧
    ((s.takeWhile Char.isDigit).foldl (fun a c => a * 10 + (c.toNat - 48)) n < 2 ^ 64 →
      (s.dropWhile Char.isDigit = [] →
        parseUintLoop n s = (s.foldl (fun a c => a * 10 + (c.toNat - 48)) n, true)) ∧
      (s.dropWhile Char.isDigit ≠ [] → parseUintLoop n s = (0, false))) := by
  induction s generalizing n with
  | nil =>
    exact ⟨fun hov => absurd hov (by simpa using Nat.not_le.mpr hn),
      fun _ => ⟨fun _ => rfl, fun hne => absurd rfl hne⟩⟩
  | cons c cs ih =>
    by_cases hc : c.isDigit
    · simp only [List.takeWhile_cons_of_pos hc, List.dropWhile_cons_of_pos hc,
        List.foldl_cons]
      by_cases hlt : n * 10 + (c.toNat - 48) < 2 ^ 64
      · have hstep : parseUintLoop n (c :: cs) =
            parseUintLoop (n * 10 + (c.toNat - 48)) cs := by
          simp only [parseUintLoop]
          rw [if_pos hc, if_pos hlt]
        rw [hstep]
        exact ih (n * 10 + (c.toNat - 48)) hlt
      · have hstep : parseUintLoop n (c :: cs) = (2 ^ 64 - 1, false) := by
          simp only [parseUintLoop]
          rw [if_pos hc, if_neg hlt]
        have hmono := le_foldl_digits (cs.takeWhile Char.isDigit)
          (n * 10 + (c.toNat - 48))
        exact ⟨fun _ => hstep, fun hsm => absurd hsm (by omega)⟩
    · simp only [List.takeWhile_cons_of_neg hc, List.dropWhile_cons_of_neg hc,
        List.foldl_nil]
      have hstep : parseUintLoop n (c :: cs) = (0, false) := by
        simp only [parseUintLoop]
        rw [if_neg hc]
      exact ⟨fun hov => absurd hov (Nat.not_le.mpr hn),
        fun _ => ⟨fun hdw => absurd hdw (by simp), fun _ => hstep⟩⟩

/-- Claim C1 (amended): every failed field increments the unparsable-field
count, and the value it leaves in the snapshot is decided by scan order: if
the value of the leading digit prefix reaches 2^64 first, the field fails
with a range error and keeps 2^64 - 1 (which does feed threshold
evaluation); otherwise the failure is a syntax error (the field is empty or
a non-digit is reached while the accumulated value is still in range) and
the value is 0. -/
theorem failed_field_value (s : List Char) (h : (parseUintGo s).2 = false) :
    errInc (parseUintGo s).2 = 1 ∧
    (2 ^ 64 ≤ digitsToNat (s.takeWhile Char.isDigit) →
      (parseUintGo s).1 = 2 ^ 64 - 1) ∧
    (digitsToNat (s.takeWhile Char.isDigit) < 2 ^ 64 → (parseUintGo s).1 = 0) := by
  have h1 : errInc (parseUintGo s).2 = 1 := by simp [errInc, h]
  by_cases hne : s = []
  · subst hne
    exact ⟨h1, fun hov => absurd hov (by decide), fun _ => by decide⟩
  · have hg : parseUintGo s = parseUintLoop 0 s := by rw [parseUintGo, if_neg hne]
    have spec := parseUintLoop_spec s 0 (by norm_num)
    refine ⟨h1, fun hov => ?_, fun hlt => ?_⟩
    · rw [hg, spec.1 (by simpa [digitsToNat] using hov)]
    · by_cases hdw : s.dropWhile Char.isDigit = []
      · exfalso
        rw [hg, (spec.2 (by simpa [digitsToNat] using hlt)).1 hdw] at h
        simp at h
      · rw [hg, (spec.2 (by simpa [digitsToNat] using hlt)).2 hdw]

/-- Witness for C1 (amended): the syntax-error field "x" is left at value 0,
while "18446744073709551616a" — digit prefix 2^64 followed by junk — fails
with a range error and keeps the value 2^64 - 1. -/
theorem failed_field_value_witness :
    ((parseUintGo ("x".toList)).2 = false ∧ (parseUintGo ("x".toList)).1 = 0) ∧
    ((parseUintGo ("18446744073709551616a".toList)).2 = false ∧
      (parseUintGo ("18446744073709551616a".toList)).1 = 2 ^ 64 - 1) :=
  ⟨⟨by decide, (failed_field_value ("x".toList) (by decide)).2.2 (by decide)⟩,
   ⟨by decide, (failed_field_value ("18446744073709551616a".toList) (by decide)).2.1
      (by decide)⟩⟩

/-- Counterexample to claim C7: the decimal numeral "18446744073709551616"
(= 2^64) is a non-negative integer, yet its interpretation fails (range
error) and the unparsable-field count is incremented — `ParseUint` with bit
size 64 does enforce an upper bound. -/
theorem numeral_overflow_fails_interpretation :
    ("18446744073709551616".toList) ≠ [] ∧
    ("18446744073709551616".toList).all Char.isDigit = true ∧
    digitsToNat ("18446744073709551616".toList) = 2 ^ 64 ∧
    (parseUintGo ("18446744073709551616".toList)).2 = false ∧
    errInc (parseUintGo ("18446744073709551616".toList)).2 = 1 := by
  refine ⟨by decide, by decide, by decide, by decide, by decide⟩

/-- Claim C7 (amended): a nonempty all-digit field is accepted, with its
numeric value and no count increment, exactly when its value is below 2^64;
at or above 2^64 interpretation fails with a range error. -/
theorem parseUintGo_accepts_below_2pow64 (s : List Char) (hne : s ≠ [])
    (hdig : s.all Char.isDigit = true) :
    (digitsToNat s < 2 ^ 64 → parseUintGo s = (digitsToNat s, true)) ∧
    (2 ^ 64 ≤ digitsToNat s → parseUintGo s = (2 ^ 64 - 1, false)) := by
  have hall : ∀ c ∈ s, Char.isDigit c := by simpa [List.all_eq_true] using hdig
  have htw : s.takeWhile Char.isDigit = s := List.takeWhile_eq_self_iff.mpr hall
  have hdw : s.dropWhile Char.isDigit = [] := List.dropWhile_eq_nil_iff.mpr hall
  have hg : parseUintGo s = parseUintLoop 0 s := by rw [parseUintGo, if_neg hne]
  have spec := parseUintLoop_spec s 0 (by norm_num)
  rw [htw] at spec
  constructor
  · intro hv
    rw [hg, (spec.2 (by simpa [digitsToNat] using hv)).1 hdw]
    rfl
  · intro hv
    rw [hg, spec.1 (by simpa [digitsToNat] using hv)]

/-- Witness for C7 (amended): "42" is accepted with value 42. -/
theorem parseUintGo_accepts_below_2pow64_witness :
    parseUintGo ("42".toList) = (42, true) := by
  have h := (parseUintGo_accepts_below_2pow64 ("42".toList) (by decide) (by decide)).1
    (by decide)
  rw [h]
  decide

/-- Counterexample to claim C6: for the snapshot from line
"5,1000,100,1000,1049577,1000,50" the disk alert fires (diskPct = 104957.7%)
and reports -1 Mb, but rounding (diskTotal - diskUsed)/1048576 = -1.0000009…
down (floor) would give -2: the source division truncates toward zero rather
than rounding down. -/
theorem disk_megabytes_truncate_not_floor :
    diskAlerts ⟨5, 1000, 100, 1000, 1049577, 1000, 50⟩ = [Alert.disk (-1)] ∧
    Int.fdiv ((1000 : Int) - 1049577) 1048576 = -2 := by
  constructor
  · have h2 : toInt64 18446744073708503039 = -1048577 := by decide
    have h3 : Int.tdiv (-1048577) 1048576 = -1 := by decide
    norm_num [diskAlerts, diskPct, freeDiscSpaceThreshold, uint64Sub, h2, h3]
  · decide

/-- Claim C6 (amended): when the disk check fires and `diskUsed ≤ diskTotal`,
the alert reports (diskTotal - diskUsed) / 1,048,576 rounded down (for a
non-negative difference truncation and floor agree, and the strict 90%
breach keeps the difference below 2^63, so the int64 reinterpretation is the
identity). -/
theorem disk_alert_megabytes_floor (s : Snapshot)
    (hT : s.diskTotal < 2 ^ 64) (hle : s.diskUsed ≤ s.diskTotal)
    (hfire : diskPct s > (freeDiscSpaceThreshold : ℚ)) :
    diskAlerts s = [Alert.disk (((s.diskTotal - s.diskUsed) / 1048576 : Nat) : Int)] ∧
    (((s.diskTotal - s.diskUsed) / 1048576 : Nat) : Int) =
      Int.fdiv ((s.diskTotal : Int) - (s.diskUsed : Int)) 1048576 := by
  have ht0 : s.diskTotal ≠ 0 := by
    intro h0
    rw [diskPct, h0] at hfire
    norm_num [freeDiscSpaceThreshold] at hfire
  have htQ : (0 : ℚ) < (s.diskTotal : ℚ) := by
    exact_mod_cast Nat.pos_of_ne_zero ht0
  have h90 : 90 * s.diskTotal < s.diskUsed * 100 := by
    rw [diskPct, div_mul_eq_mul_div, gt_iff_lt, lt_div_iff₀ htQ,
      freeDiscSpaceThreshold] at hfire
    exact_mod_cast hfire
  have hpow : (2 : Nat) ^ 64 = 18446744073709551616 := by norm_num
  have hpow63 : (2 : Nat) ^ 63 = 9223372036854775808 := by norm_num
  have hsmall : s.diskTotal - s.diskUsed < 2 ^ 63 := by
    rw [hpow63]; rw [hpow] at hT; omega
  have huint : uint64Sub s.diskTotal s.diskUsed = s.diskTotal - s.diskUsed := by
    unfold uint64Sub; rw [hpow]; rw [hpow] at hT; omega
  have htoi : toInt64 (s.diskTotal - s.diskUsed) =
      ((s.diskTotal - s.diskUsed : Nat) : Int) := by
    unfold toInt64; rw [if_pos hsmall]
  have hdiv : Int.tdiv (((s.diskTotal - s.diskUsed : Nat) : Int)) (1024 * 1024) =
      (((s.diskTotal - s.diskUsed) / 1048576 : Nat) : Int) := rfl
  refine ⟨?_, ?_⟩
  · rw [diskAlerts, if_pos hfire, huint, htoi, hdiv]
  · rw [← Int.ofNat_sub hle,
      show (1048576 : Int) = ((1048576 : Nat) : Int) from rfl, ← Int.ofNat_fdiv]

/-- Witness for C6 (amended): the spec's Scenario C line
"5,1000,100,1000,950,1000,50" yields a disk alert reporting 0 Mb left
(50 remaining bytes round down to 0) and a successful cycle. -/
theorem disk_alert_megabytes_floor_witness :
    pollOnce ("5,1000,100,1000,950,1000,50".toList) = ([Alert.disk 0], none) := by
  have hsplit : splitCSV (trimSpace ("5,1000,100,1000,950,1000,50".toList)) =
      ["5".toList, "1000".toList, "100".toList, "1000".toList, "950".toList,
       "1000".toList, "50".toList] := by decide
  have hparse : parseFields ["5".toList, "1000".toList, "100".toList, "1000".toList,
      "950".toList, "1000".toList, "50".toList] =
      (⟨5, 1000, 100, 1000, 950, 1000, 50⟩, 0) := by decide
  have hd := (disk_alert_megabytes_floor ⟨5, 1000, 100, 1000, 950, 1000, 50⟩
      (by norm_num) (by norm_num) (by norm_num [diskPct, freeDiscSpaceThreshold])).1
  simp only [pollOnce, hsplit, hparse]
  norm_num [evaluate, loadAlerts, memAlerts, netAlerts, memPct, netPct, hd,
    loadAverageThreshold, memoryUsageThreshold, networkBandwidthThreshold]

/-- Counterexample to claim C9: with diskTotal = 1000 and diskUsed = 2000 the
disk alert fires and reports 0 Mb — the truncating int64 division turns the
wrapped difference (int64 value -1000) into 0, which is not a negative
number. -/
theorem disk_wraparound_small_shortfall_not_negative :
    diskAlerts ⟨5, 1000, 100, 1000, 2000, 1000, 50⟩ = [Alert.disk 0] ∧
    ¬ ((0 : Int) < 0) := by
  constructor
  · have h2 : toInt64 18446744073709550616 = -1000 := by decide
    have h3 : Int.tdiv (-1000) 1048576 = 0 := by decide
    norm_num [diskAlerts, diskPct, freeDiscSpaceThreshold, uint64Sub, h2, h3]
  · decide

/-- Claim C9 (amended): the remaining-capacity subtractions wrap modulo 2^64.
When the disk alert fires with diskUsed > diskTotal (shortfall below 2^63),
the reported figure is the int64 reinterpretation of the wrapped difference —
that is, minus the shortfall — divided by 1,048,576 truncating toward zero:
a nonpositive number, strictly negative exactly when the shortfall is at
least 2^20 bytes. When networkUsed > networkCapacity (capacity nonzero), the
network alert always fires and reports the wrapped difference
2^64 - (netUsed - netCap) converted to Mbit/s, a positive value rather than
zero remaining. -/
theorem wraparound_subtraction_characterization (s : Snapshot)
    (hdT : s.diskTotal < 2 ^ 64) (hdU : s.diskUsed < 2 ^ 64)
    (hnT : s.netCap < 2 ^ 64) (hnU : s.netUsed < 2 ^ 64) :
    (s.diskTotal < s.diskUsed → s.diskUsed - s.diskTotal < 2 ^ 63 →
      diskPct s > (freeDiscSpaceThreshold : ℚ) →
      diskAlerts s =
        [Alert.disk (Int.tdiv (-((s.diskUsed - s.diskTotal : Nat) : Int)) 1048576)] ∧
      Int.tdiv (-((s.diskUsed - s.diskTotal : Nat) : Int)) 1048576 ≤ 0 ∧
      (Int.tdiv (-((s.diskUsed - s.diskTotal : Nat) : Int)) 1048576 < 0 ↔
        2 ^ 20 ≤ s.diskUsed - s.diskTotal)) ∧
    (s.netCap ≠ 0 → s.netCap < s.netUsed →
      netAlerts s =
        [Alert.network (((2 ^ 64 - (s.netUsed - s.netCap) : Nat) : ℚ) * 8 / 1000000)] ∧
      0 < ((2 ^ 64 - (s.netUsed - s.netCap) : Nat) : ℚ) * 8 / 1000000) := by
  have hpow : (2 : Nat) ^ 64 = 18446744073709551616 := by norm_num
  have hpow63 : (2 : Nat) ^ 63 = 9223372036854775808 := by norm_num
  have hpow20 : (2 : Nat) ^ 20 = 1048576 := by norm_num
  constructor
  · intro hlt hsm hfire
    have huint : uint64Sub s.diskTotal s.diskUsed =
        2 ^ 64 - (s.diskUsed - s.diskTotal) := by
      unfold uint64Sub
      rw [hpow]
      rw [hpow] at hdT hdU
      omega
    have hbig : ¬ (2 ^ 64 - (s.diskUsed - s.diskTotal) < 2 ^ 63) := by
      rw [hpow, hpow63]
      rw [hpow63] at hsm
      omega
    have htoi : toInt64 (2 ^ 64 - (s.diskUsed - s.diskTotal)) =
        -((s.diskUsed - s.diskTotal : Nat) : Int) := by
      unfold toInt64
      rw [if_neg hbig]
      have h1 : s.diskUsed - s.diskTotal ≤ 2 ^ 64 := by
        rw [hpow]; rw [hpow] at hdU; omega
      rw [Nat.cast_sub h1]
      push_cast
      ring
    have hd : Int.tdiv (((s.diskUsed - s.diskTotal : Nat) : Int)) 1048576 =
        (((s.diskUsed - s.diskTotal) / 1048576 : Nat) : Int) := rfl
    refine ⟨?_, ?_, ?_⟩
    · rw [diskAlerts, if_pos hfire, huint, htoi]
      norm_num
    · rw [Int.neg_tdiv, hd]
      exact neg_nonpos.mpr (Int.natCast_nonneg _)
    · rw [Int.neg_tdiv, hd, neg_lt_zero, Int.natCast_pos,
        Nat.div_pos_iff (by norm_num), hpow20]
  · intro hnz hlt
    have hcQ : (0 : ℚ) < (s.netCap : ℚ) := by
      exact_mod_cast Nat.pos_of_ne_zero hnz
    have huQ : (s.netCap : ℚ) < (s.netUsed : ℚ) := by exact_mod_cast hlt
    have hone : (1 : ℚ) < (s.netUsed : ℚ) / (s.netCap : ℚ) :=
      (one_lt_div hcQ).mpr huQ
    have hfire : netPct s > (networkBandwidthThreshold : ℚ) := by
      rw [netPct, networkBandwidthThreshold]
      push_cast
      nlinarith
    have huint : uint64Sub s.netCap s.netUsed = 2 ^ 64 - (s.netUsed - s.netCap) := by
      unfold uint64Sub
      rw [hpow]
      rw [hpow] at hnT hnU
      omega
    have hwpos : 0 < 2 ^ 64 - (s.netUsed - s.netCap) := by
      rw [hpow]
      rw [hpow] at hnU
      omega
    have hwQ : (0 : ℚ) < ((2 ^ 64 - (s.netUsed - s.netCap) : Nat) : ℚ) := by
      exact_mod_cast hwpos
    refine ⟨?_, ?_⟩
    · rw [netAlerts, if_pos hfire, huint]
    · exact div_pos (mul_pos hwQ (by norm_num)) (by norm_num)

/-- Witness for C9 (amended): diskTotal = 1000, diskUsed = 3000000 reports
-2 Mb (truncation of -2999000/1048576), and netCap = 1000, netUsed = 2000
reports the wrapped difference (2^64 - 1000 bytes/s) in Mbit/s. -/
theorem wraparound_subtraction_characterization_witness :
    diskAlerts ⟨5, 1000, 100, 1000, 3000000, 1000, 2000⟩ = [Alert.disk (-2)] ∧
    netAlerts ⟨5, 1000, 100, 1000, 3000000, 1000, 2000⟩ =
      [Alert.network (((2 ^ 64 - 1000 : Nat) : ℚ) * 8 / 1000000)] := by
  have h := wraparound_subtraction_characterization
      ⟨5, 1000, 100, 1000, 3000000, 1000, 2000⟩
      (by norm_num) (by norm_num) (by norm_num) (by norm_num)
  obtain ⟨h1, -, -⟩ := h.1 (by norm_num) (by norm_num)
      (by norm_num [diskPct, freeDiscSpaceThreshold])
  obtain ⟨h2, -⟩ := h.2 (by norm_num) (by norm_num)
  constructor
  · rw [h1]
    decide
  · rw [h2]
    norm_num

end ServerMon
